import Mathlib

/-!
Verification development for the Apex Arc home-run prediction pipeline.

The pipeline has four core stages, each embedded below from its source:
* the Predictor (`top30_hr_predictor.py`, `generate_top30_predictions`),
* the Parlay Builder (`parlay_stack_builder.py`, `build_parlay_stacks`),
* the Outcome Tracker (`hr_tracker.py`, `track_home_runs`),
* the Diagnostics (`shadow_diagnostics.py`, `run_shadow_diagnostics`).

Numeric columns are embedded as rationals (exact arithmetic); tables are
lists of typed rows.  The pandas merge used by the tracker renames
overlapping non-key columns with `_x`/`_y` suffixes; that renaming is
modelled explicitly (`mergeColumns`) because the tracker's Miss branch
performs a dynamic column lookup whose outcome depends on it.
-/

/-- One row of the raw player table consumed by the Predictor, after the
four overlay stages have added their boost columns.  Fields mirror the
columns used by `generate_top30_predictions`: `Player`, `Team`, `Opponent`,
`Barrel%`, `LaunchAngleSweetSpot%`, `xISO`, `WeatherBoost`,
`ParkFactorBoost`, `PitcherHRBoost`, `HotStreakBoost`. -/
structure PlayerRow where
  player : String
  team : String
  opponent : String
  barrelPct : ℚ
  launchAngleSweetSpotPct : ℚ
  xISO : ℚ
  weatherBoost : ℚ
  parkFactorBoost : ℚ
  pitcherHRBoost : ℚ
  hotStreakBoost : ℚ
deriving DecidableEq, Repr

/-- A player row together with its computed `HR_Score` column. -/
structure ScoredRow extends PlayerRow where
  hrScore : ℚ
deriving DecidableEq, Repr

/-- A scored row together with its assigned `Confidence` label. -/
structure OutRow extends ScoredRow where
  confidence : String
deriving DecidableEq, Repr

/-- The `HR_Score` assignment of `top30_hr_predictor.py` lines 32-40:
`0.4*Barrel% + 0.3*LaunchAngleSweetSpot% + 0.2*xISO + 0.1*WeatherBoost
 + ParkFactorBoost + PitcherHRBoost + HotStreakBoost`. -/
def scoreRow (p : PlayerRow) : ScoredRow :=
  { toPlayerRow := p
    hrScore :=
      0.4 * p.barrelPct +
      0.3 * p.launchAngleSweetSpotPct +
      0.2 * p.xISO +
      0.1 * p.weatherBoost +
      p.parkFactorBoost +
      p.pitcherHRBoost +
      p.hotStreakBoost }

/-- Comparison used by `sort_values(by='HR_Score', ascending=False)`:
row `a` precedes row `b` when `b`'s score is at most `a`'s. -/
def scoreGE (a b : ScoredRow) : Prop := b.hrScore ≤ a.hrScore

instance : DecidableRel scoreGE :=
  fun a b => inferInstanceAs (Decidable (b.hrScore ≤ a.hrScore))

instance : IsTotal ScoredRow scoreGE :=
  ⟨fun a b => le_total b.hrScore a.hrScore⟩

instance : IsTrans ScoredRow scoreGE :=
  ⟨fun _ _ _ h1 h2 => le_trans h2 h1⟩

/-- Linear-interpolation percentile of `np.percentile`: sort ascending,
take position `q/100 * (n-1)`, and interpolate between the two adjacent
order statistics.  (`np.percentile` raises on an empty array; the guard
returns 0 there, a case the pipeline never reaches since it always passes
the 30 selected scores.) -/
def percentile (xs : List ℚ) (q : ℚ) : ℚ :=
  let s := List.insertionSort (· ≤ ·) xs
  if s.length = 0 then 0
  else
    let pos : ℚ := q * ((s.length : ℚ) - 1) / 100
    let i : ℕ := pos.floor.toNat
    let frac : ℚ := pos - (i : ℚ)
    let a := s.getD i 0
    let b := s.getD (i + 1) a
    a + frac * (b - a)

/-- The `np.select` of `top30_hr_predictor.py` lines 47-53: first matching
condition wins, default `B+`. -/
def selectConfidence (c0 c1 c2 s : ℚ) : String :=
  if c0 ≤ s then "A+"
  else if c1 ≤ s then "A"
  else if c2 ≤ s then "A-"
  else "B+"

/-- Scoring, ranking and truncation of `generate_top30_predictions`:
score every row, sort descending by `HR_Score`, keep the first 30. -/
def top30of (df : List PlayerRow) : List ScoredRow :=
  (List.insertionSort scoreGE (df.map scoreRow)).take 30

/-- The 90th-percentile confidence cutoff, computed over the selected
top-30 rows' scores (`np.percentile(top30['HR_Score'], [90, 75, 60])[0]`). -/
def cutoff90 (df : List PlayerRow) : ℚ :=
  percentile ((top30of df).map (·.hrScore)) 90

/-- The 75th-percentile confidence cutoff over the selected rows. -/
def cutoff75 (df : List PlayerRow) : ℚ :=
  percentile ((top30of df).map (·.hrScore)) 75

/-- The 60th-percentile confidence cutoff over the selected rows. -/
def cutoff60 (df : List PlayerRow) : ℚ :=
  percentile ((top30of df).map (·.hrScore)) 60

/-- The Predictor, `generate_top30_predictions` (steps 3-5 of
`top30_hr_predictor.py`): compute `HR_Score` for every row, sort
descending, take the top 30, compute the three percentile cutoffs over the
selected rows' scores, and label each selected row by `np.select`. -/
def generate_top30_predictions (df : List PlayerRow) : List OutRow :=
  let t := top30of df
  (t.map fun r =>
    { toScoredRow := r
      confidence := selectConfidence (cutoff90 df) (cutoff75 df) (cutoff60 df) r.hrScore })

/-- A concrete all-zero player row, used to build witness inputs. -/
def zeroRow : PlayerRow :=
  { player := "p", team := "t", opponent := "o"
    barrelPct := 0, launchAngleSweetSpotPct := 0, xISO := 0
    weatherBoost := 0, parkFactorBoost := 0, pitcherHRBoost := 0
    hotStreakBoost := 0 }

/-- Thirty identical all-zero rows: a minimal input satisfying the
Predictor's size precondition. -/
def df30 : List PlayerRow := List.replicate 30 zeroRow

/-- The row `zeroRow` scored: its `HR_Score` is 0. -/
def zeroScored : ScoredRow := { toPlayerRow := zeroRow, hrScore := 0 }

/-- The output row produced by the Predictor for `zeroRow` on the
all-zero input: score 0, confidence `A+`. -/
def zeroOut : OutRow := { toScoredRow := zeroScored, confidence := "A+" }

theorem scoreRow_zeroRow : scoreRow zeroRow = zeroScored := by
  simp [scoreRow, zeroRow, zeroScored]

theorem orderedInsert_scoreGE_replicate (n : ℕ) :
    List.orderedInsert scoreGE zeroScored (List.replicate n zeroScored) =
      List.replicate (n + 1) zeroScored := by
  cases n with
  | zero => rfl
  | succ m =>
      simp [List.replicate_succ, List.orderedInsert, scoreGE]

theorem insertionSort_scoreGE_replicate (n : ℕ) :
    List.insertionSort scoreGE (List.replicate n zeroScored) =
      List.replicate n zeroScored := by
  induction n with
  | zero => rfl
  | succ m ih =>
      rw [List.replicate_succ, List.insertionSort, ih,
        orderedInsert_scoreGE_replicate, List.replicate_succ]

theorem orderedInsert_le_replicate_zero (n : ℕ) :
    List.orderedInsert (· ≤ ·) (0 : ℚ) (List.replicate n (0 : ℚ)) =
      List.replicate (n + 1) (0 : ℚ) := by
  cases n with
  | zero => rfl
  | succ m => simp [List.replicate_succ, List.orderedInsert]

theorem insertionSort_le_replicate_zero (n : ℕ) :
    List.insertionSort (· ≤ ·) (List.replicate n (0 : ℚ)) =
      List.replicate n (0 : ℚ) := by
  induction n with
  | zero => rfl
  | succ m ih =>
      rw [List.replicate_succ, List.insertionSort, ih,
        orderedInsert_le_replicate_zero, List.replicate_succ]

theorem getD_replicate_self (c : ℚ) : ∀ (n i : ℕ),
    (List.replicate n c).getD i c = c
  | 0, _ => rfl
  | _ + 1, 0 => rfl
  | n + 1, i + 1 => by
      rw [List.replicate_succ]
      exact getD_replicate_self c n i

theorem percentile_replicate30_zero (q : ℚ) :
    percentile (List.replicate 30 (0 : ℚ)) q = 0 := by
  simp only [percentile, insertionSort_le_replicate_zero,
    List.length_replicate]
  rw [if_neg (by decide : ¬((30 : ℕ) = 0))]
  simp only [getD_replicate_self]
  simp

theorem top30of_df30 : top30of df30 = List.replicate 30 zeroScored := by
  rw [top30of, df30, List.map_replicate, scoreRow_zeroRow,
    insertionSort_scoreGE_replicate, List.take_replicate]
  simp

theorem cutoff90_df30 : cutoff90 df30 = 0 := by
  rw [cutoff90, top30of_df30, List.map_replicate]
  exact percentile_replicate30_zero 90

theorem cutoff75_df30 : cutoff75 df30 = 0 := by
  rw [cutoff75, top30of_df30, List.map_replicate]
  exact percentile_replicate30_zero 75

theorem cutoff60_df30 : cutoff60 df30 = 0 := by
  rw [cutoff60, top30of_df30, List.map_replicate]
  exact percentile_replicate30_zero 60

theorem generate_df30 :
    generate_top30_predictions df30 = List.replicate 30 zeroOut := by
  rw [generate_top30_predictions, top30of_df30]
  rw [List.map_replicate]
  rw [cutoff90_df30, cutoff75_df30, cutoff60_df30]
  simp [selectConfidence, zeroScored, zeroOut]

theorem top30of_df31 :
    top30of (zeroRow :: df30) = List.replicate 30 zeroScored := by
  have h31 : zeroRow :: df30 = List.replicate 31 zeroRow := by
    rw [df30]
    exact (List.replicate_succ zeroRow 30).symm
  rw [top30of, h31, List.map_replicate, scoreRow_zeroRow,
    insertionSort_scoreGE_replicate, List.take_replicate]
  norm_num

/-- One parlay stack row as assembled in `build_parlay_stacks`
(`parlay_stack_builder.py` lines 57-65). -/
structure Stack where
  player1 : String
  team1 : String
  player2 : String
  team2 : String
  combinedScore : ℚ
  player1Confidence : String
  player2Confidence : String
deriving DecidableEq, Repr

/-- The `confidence_value` dict of `parlay_stack_builder.py` lines 44-49;
a label outside the four keys has no entry (a lookup on it raises). -/
def confidence_value (t : String) : Option ℚ :=
  if t = "A+" then some 0.15
  else if t = "A" then some 0.10
  else if t = "A-" then some 0.05
  else if t = "B+" then some 0.0
  else none

/-- All 2-combinations of list positions `i < j`, in the enumeration order
of `itertools.combinations(top20.index, 2)`. -/
def combinations2 : List OutRow → List (OutRow × OutRow)
  | [] => []
  | x :: xs => (xs.map fun y => (x, y)) ++ combinations2 xs

/-- The candidate pairs enumerated before the same-team filter: all
2-combinations of the first 20 rows of the prediction table. -/
def candidatePairs (top30 : List OutRow) : List (OutRow × OutRow) :=
  combinations2 (top30.take 20)

/-- The candidate pairs surviving the same-team skip
(`if player1['Team'] == player2['Team']: continue`). -/
def filteredPairs (top30 : List OutRow) : List (OutRow × OutRow) :=
  (candidatePairs top30).filter fun pr => !(pr.1.team == pr.2.team)

/-- One surviving pair turned into a stack: base score is the product of
the two `HR_Score`s, then the confidence bonus multiplier is applied; a
confidence label missing from the `confidence_value` dict raises a
`KeyError`, modelled as the error outcome. -/
def mkStack (p1 p2 : OutRow) : Except String Stack :=
  match confidence_value p1.confidence, confidence_value p2.confidence with
  | some v1, some v2 =>
      .ok { player1 := p1.player
            team1 := p1.team
            player2 := p2.player
            team2 := p2.team
            combinedScore := p1.hrScore * p2.hrScore * (1 + v1 + v2)
            player1Confidence := p1.confidence
            player2Confidence := p2.confidence }
  | _, _ => .error "KeyError"

/-- The stack-building loop of `build_parlay_stacks` lines 34-65: process
the surviving pairs in order, stopping at the first failing confidence
lookup. -/
def buildStacks : List (OutRow × OutRow) → Except String (List Stack)
  | [] => .ok []
  | pr :: rest =>
      match mkStack pr.1 pr.2 with
      | .error e => .error e
      | .ok s =>
          match buildStacks rest with
          | .error e => .error e
          | .ok ss => .ok (s :: ss)

/-- Comparison used by `sort_values('Combined_Score', ascending=False)`. -/
def combinedGE (a b : Stack) : Prop := b.combinedScore ≤ a.combinedScore

instance : DecidableRel combinedGE :=
  fun a b => inferInstanceAs (Decidable (b.combinedScore ≤ a.combinedScore))

instance : IsTotal Stack combinedGE :=
  ⟨fun a b => le_total b.combinedScore a.combinedScore⟩

instance : IsTrans Stack combinedGE :=
  ⟨fun _ _ _ h1 h2 => le_trans h2 h1⟩

/-- The Parlay Builder, `build_parlay_stacks`: enumerate the candidate
pairs over the top 20, drop same-team pairs, score the rest, sort
descending by `Combined_Score` and keep the top 15. -/
def build_parlay_stacks (top30 : List OutRow) : Except String (List Stack) :=
  match buildStacks (filteredPairs top30) with
  | .error e => .error e
  | .ok ss => .ok ((List.insertionSort combinedGE ss).take 15)

/-- One row of the reduced prediction artifact consumed by the tracker
(`apex_top30_<date>.csv`: `Player`, `Team`, `Opponent`, `HR_Score`,
`Confidence`). -/
structure PredRow where
  player : String
  team : String
  opponent : String
  hrScore : ℚ
  confidence : String
deriving DecidableEq, Repr

/-- One row of the actual-outcome table returned by `get_actual_hr_data`
(`Player`, `Team`, `HR_Count`, `Date`). -/
structure ActualRow where
  player : String
  team : String
  hrCount : ℕ
  date : String
deriving DecidableEq, Repr

/-- One tracking record as appended by `track_home_runs`. -/
structure TrackRow where
  date : String
  player : String
  team : String
  hrScore : ℚ
  confidence : String
  actualHR : ℕ
  result : String
  multipleHR : Bool
deriving DecidableEq, Repr

/-- Column names of a `pd.merge(left, right, on=key)` result: overlapping
non-key columns are renamed with `_x` (left) and `_y` (right) suffixes. -/
def mergeColumns (left right : List String) (key : String) : List String :=
  (left.map fun c => if c ≠ key ∧ c ∈ right then c ++ "_x" else c) ++
    ((right.filter fun c => !(c == key)).map
      fun c => if c ∈ left then c ++ "_y" else c)

/-- Columns of the reduced prediction artifact. -/
def predictionCols : List String :=
  ["Player", "Team", "Opponent", "HR_Score", "Confidence"]

/-- Columns of the actual-outcome table. -/
def actualCols : List String := ["Player", "Team", "HR_Count", "Date"]

/-- The Hit partition (`hr_tracker.py` lines 57-74): inner merge on
`Player`; the team is read from `Team_x`, the prediction side. -/
def hitRecords (d : String) (preds : List PredRow) (acts : List ActualRow) :
    List TrackRow :=
  preds.flatMap fun p =>
    (acts.filter fun o => o.player == p.player).map fun o =>
      { date := d
        player := p.player
        team := p.team
        hrScore := p.hrScore
        confidence := p.confidence
        actualHR := o.hrCount
        result := "Hit"
        multipleHR := decide (1 < o.hrCount) }

/-- The Miss partition (`hr_tracker.py` lines 77-102): left merge keeping
`left_only` rows; each field is looked up by plain column name in the
merged row and falls back to a sentinel when the column is absent.  The
merged frame's columns are `mergeColumns predictionCols actualCols
"Player"`; when a looked-up column is present its value comes from the
prediction (left) side. -/
def missRecords (d : String) (preds : List PredRow) (acts : List ActualRow) :
    List TrackRow :=
  let cols := mergeColumns predictionCols actualCols "Player"
  (preds.filter fun p =>
      (acts.filter fun o => o.player == p.player).isEmpty).map fun p =>
    { date := d
      player := p.player
      team := if "Team" ∈ cols then p.team else "Unknown"
      hrScore := if "HR_Score" ∈ cols then p.hrScore else 0
      confidence := if "Confidence" ∈ cols then p.confidence else "None"
      actualHR := 0
      result := "Miss"
      multipleHR := false }

/-- The Surprise partition (`hr_tracker.py` lines 105-127): left merge of
the outcomes against the predictions keeping `left_only` rows; the team
column name is `Team_x` when present (the outcome side of that merge),
else `Team`; either way the value read is the outcome row's team. -/
def surpriseRecords (d : String) (preds : List PredRow)
    (acts : List ActualRow) : List TrackRow :=
  let cols := mergeColumns actualCols predictionCols "Player"
  let teamCol := if "Team_x" ∈ cols then "Team_x" else "Team"
  (acts.filter fun o =>
      (preds.filter fun p => p.player == o.player).isEmpty).map fun o =>
    { date := d
      player := o.player
      team := if teamCol ∈ cols then o.team else "Unknown"
      hrScore := 0
      confidence := "None"
      actualHR := if "HR_Count" ∈ cols then o.hrCount else 1
      result := "Surprise"
      multipleHR := if "HR_Count" ∈ cols then decide (1 < o.hrCount) else false }

/-- The full day's tracking table, in the order the three partitions are
appended to `tracking_results`. -/
def trackingRecords (d : String) (preds : List PredRow)
    (acts : List ActualRow) : List TrackRow :=
  hitRecords d preds acts ++ missRecords d preds acts ++
    surpriseRecords d preds acts

/-- The artifact-availability logic of `track_home_runs` (lines 36-51):
if the dated prediction artifact is missing, fall back to the `latest`
artifact; if that is also missing, or the actual-outcome data is missing
or empty, return `None`; otherwise produce the day's tracking records. -/
def track_home_runs (datedPred latestPred : Option (List PredRow))
    (actual : Option (List ActualRow)) (d : String) :
    Option (List TrackRow) :=
  let predTable : Option (List PredRow) :=
    match datedPred with
    | some p => some p
    | none => latestPred
  match predTable with
  | none => none
  | some preds =>
      match actual with
      | none => none
      | some acts =>
          if acts.length = 0 then none
          else some (trackingRecords d preds acts)

/-- Number of records in a tracking window labelled `Hit`
(`shadow_diagnostics.py` line 51). -/
def hit_count (l : List TrackRow) : ℕ :=
  (l.filter fun r => r.result == "Hit").length

/-- Number of records labelled `Miss` (line 52). -/
def miss_count (l : List TrackRow) : ℕ :=
  (l.filter fun r => r.result == "Miss").length

/-- Number of records labelled `Surprise` (line 53). -/
def surprise_count (l : List TrackRow) : ℕ :=
  (l.filter fun r => r.result == "Surprise").length

/-- Count `total_predictions = hit_count + miss_count` (line 55). -/
def total_predictions (l : List TrackRow) : ℕ := hit_count l + miss_count l

/-- Count `total_hrs = hit_count + surprise_count` (line 56). -/
def total_hrs (l : List TrackRow) : ℕ := hit_count l + surprise_count l

/-- Rate `hit_rate = hit_count / total_predictions if total_predictions
> 0 else 0` (`shadow_diagnostics.py` line 58). -/
def hit_rate (l : List TrackRow) : ℚ :=
  if 0 < total_predictions l then
    (hit_count l : ℚ) / (total_predictions l : ℚ)
  else 0

/-- Rate `surprise_rate = surprise_count / total_hrs if total_hrs > 0
else 0` (line 59). -/
def surprise_rate (l : List TrackRow) : ℚ :=
  if 0 < total_hrs l then
    (surprise_count l : ℚ) / (total_hrs l : ℚ)
  else 0

/-- C1: for every input player table with at least 30 rows (all metric and
boost columns numeric, which the typed embedding enforces), the Predictor
returns exactly 30 rows, sorted so that `HR_Score` is non-increasing from
the first row to the last. -/
theorem claim_C1 (df : List PlayerRow) (h : 30 ≤ df.length) :
    (generate_top30_predictions df).length = 30 ∧
      List.Sorted (fun a b : OutRow => b.hrScore ≤ a.hrScore)
        (generate_top30_predictions df) := by
  have hlen : (top30of df).length = 30 := by
    rw [top30of, List.length_take, List.length_insertionSort,
      List.length_map]
    exact min_eq_left h
  constructor
  · simp only [generate_top30_predictions, List.length_map]
    exact hlen
  · have hs : List.Sorted scoreGE
        (List.insertionSort scoreGE (df.map scoreRow)) :=
      List.sorted_insertionSort scoreGE _
    have ht : List.Sorted scoreGE (top30of df) :=
      List.Pairwise.sublist (List.take_sublist _ _) hs
    simp only [generate_top30_predictions]
    exact List.Pairwise.map _ (fun a b hab => hab) ht

/-- Instantiation of `claim_C1` at a concrete 30-row table. -/
theorem claim_C1_witness :
    30 ≤ df30.length ∧
      ((generate_top30_predictions df30).length = 30 ∧
        List.Sorted (fun a b : OutRow => b.hrScore ≤ a.hrScore)
          (generate_top30_predictions df30)) :=
  ⟨by decide, claim_C1 df30 (by decide)⟩

/-- C2: the scoring stage assigns every row of the input table an
`HR_Score` equal to `0.4*Barrel% + 0.3*LaunchAngleSweetSpot% + 0.2*xISO +
0.1*WeatherBoost + ParkFactorBoost + PitcherHRBoost + HotStreakBoost`
(the last three boost terms unweighted), and every row of the Predictor's
output carries that score of its own metric and boost columns. -/
theorem claim_C2 (df : List PlayerRow) :
    (∀ p ∈ df, (scoreRow p).hrScore =
        0.4 * p.barrelPct + 0.3 * p.launchAngleSweetSpotPct +
          0.2 * p.xISO + 0.1 * p.weatherBoost + p.parkFactorBoost +
          p.pitcherHRBoost + p.hotStreakBoost) ∧
      ∀ r ∈ generate_top30_predictions df,
        r.hrScore =
          0.4 * r.barrelPct + 0.3 * r.launchAngleSweetSpotPct +
            0.2 * r.xISO + 0.1 * r.weatherBoost + r.parkFactorBoost +
            r.pitcherHRBoost + r.hotStreakBoost := by
  refine ⟨fun p _ => rfl, fun r hr => ?_⟩
  simp only [generate_top30_predictions] at hr
  rcases List.mem_map.1 hr with ⟨s, hs, rfl⟩
  have hs' : s ∈ List.insertionSort scoreGE (df.map scoreRow) :=
    List.mem_of_mem_take hs
  rw [List.mem_insertionSort] at hs'
  rcases List.mem_map.1 hs' with ⟨p, _, rfl⟩
  rfl

/-- Instantiation of `claim_C2` at a concrete input row and a concrete
output row. -/
theorem claim_C2_witness :
    zeroRow ∈ df30 ∧
      (scoreRow zeroRow).hrScore =
        0.4 * zeroRow.barrelPct + 0.3 * zeroRow.launchAngleSweetSpotPct +
          0.2 * zeroRow.xISO + 0.1 * zeroRow.weatherBoost +
          zeroRow.parkFactorBoost + zeroRow.pitcherHRBoost +
          zeroRow.hotStreakBoost ∧
      zeroOut ∈ generate_top30_predictions df30 ∧
      zeroOut.hrScore =
        0.4 * zeroOut.barrelPct + 0.3 * zeroOut.launchAngleSweetSpotPct +
          0.2 * zeroOut.xISO + 0.1 * zeroOut.weatherBoost +
          zeroOut.parkFactorBoost + zeroOut.pitcherHRBoost +
          zeroOut.hotStreakBoost := by
  have hp : zeroRow ∈ df30 := by decide
  have hm : zeroOut ∈ generate_top30_predictions df30 := by
    rw [generate_df30]
    exact List.mem_replicate.2 ⟨by decide, rfl⟩
  exact ⟨hp, (claim_C2 df30).1 zeroRow hp, hm, (claim_C2 df30).2 zeroOut hm⟩

/-- C3: every Confidence label of the Predictor's output lies in the
closed set `{A+, A, A-, B+}`; every output row whose `HR_Score` is at
least the 90th-percentile cutoff is labelled `A+`; and the output (hence
every cutoff) depends only on the 30 selected rows, not on the rest of the
input table. -/
theorem claim_C3 (df : List PlayerRow) :
    (∀ r ∈ generate_top30_predictions df,
        r.confidence = "A+" ∨ r.confidence = "A" ∨ r.confidence = "A-" ∨
          r.confidence = "B+") ∧
      (∀ r ∈ generate_top30_predictions df,
          cutoff90 df ≤ r.hrScore → r.confidence = "A+") ∧
      (∀ df2 : List PlayerRow, top30of df = top30of df2 →
          generate_top30_predictions df = generate_top30_predictions df2) := by
  refine ⟨?_, ?_, ?_⟩
  · intro r hr
    simp only [generate_top30_predictions] at hr
    rcases List.mem_map.1 hr with ⟨s, _, rfl⟩
    simp only [selectConfidence]
    split_ifs <;> simp
  · intro r hr hc
    simp only [generate_top30_predictions] at hr
    rcases List.mem_map.1 hr with ⟨s, _, rfl⟩
    simp only [selectConfidence]
    rw [if_pos hc]
  · intro df2 h
    simp only [generate_top30_predictions, cutoff90, cutoff75, cutoff60, h]

/-- Instantiation of `claim_C3` at a concrete table: the all-zero top row
is labelled `A+`, and prepending an extra row that does not change the
selected top-30 set leaves the output unchanged. -/
theorem claim_C3_witness :
    zeroOut ∈ generate_top30_predictions df30 ∧
      (zeroOut.confidence = "A+" ∨ zeroOut.confidence = "A" ∨
        zeroOut.confidence = "A-" ∨ zeroOut.confidence = "B+") ∧
      cutoff90 df30 ≤ zeroOut.hrScore ∧
      zeroOut.confidence = "A+" ∧
      top30of df30 = top30of (zeroRow :: df30) ∧
      generate_top30_predictions df30 =
        generate_top30_predictions (zeroRow :: df30) := by
  have hm : zeroOut ∈ generate_top30_predictions df30 := by
    rw [generate_df30]
    exact List.mem_replicate.2 ⟨by decide, rfl⟩
  have hle : cutoff90 df30 ≤ zeroOut.hrScore := by
    rw [cutoff90_df30]
    exact le_rfl
  have htop : top30of df30 = top30of (zeroRow :: df30) := by
    rw [top30of_df30, top30of_df31]
  exact ⟨hm, (claim_C3 df30).1 zeroOut hm, hle,
    (claim_C3 df30).2.1 zeroOut hm hle, htop,
    (claim_C3 df30).2.2 (zeroRow :: df30) htop⟩

theorem length_combinations2 :
    ∀ l : List OutRow, (combinations2 l).length = l.length.choose 2
  | [] => rfl
  | x :: xs => by
      simp only [combinations2, List.length_append, List.length_map,
        length_combinations2 xs, List.length_cons]
      rw [Nat.choose_succ_succ, Nat.choose_one_right, Nat.add_comm]

theorem combinations2_rel {R : OutRow → OutRow → Prop} :
    ∀ l : List OutRow, l.Pairwise R →
      ∀ pr ∈ combinations2 l, R pr.1 pr.2
  | [], _, _, hpr => by simp [combinations2] at hpr
  | x :: xs, hpw, pr, hpr => by
      rw [List.pairwise_cons] at hpw
      rw [combinations2, List.mem_append] at hpr
      rcases hpr with hl | hr
      · rcases List.mem_map.1 hl with ⟨y, hy, rfl⟩
        exact hpw.1 y hy
      · exact combinations2_rel xs hpw.2 pr hr

theorem mkStack_ok_fields {p1 p2 : OutRow} {s : Stack}
    (h : mkStack p1 p2 = .ok s) :
    s.team1 = p1.team ∧ s.team2 = p2.team ∧
      ∃ v1 v2, confidence_value p1.confidence = some v1 ∧
        confidence_value p2.confidence = some v2 ∧
        s.combinedScore = p1.hrScore * p2.hrScore * (1 + v1 + v2) := by
  cases h1 : confidence_value p1.confidence with
  | none => simp [mkStack, h1] at h
  | some v1 =>
      cases h2 : confidence_value p2.confidence with
      | none => simp [mkStack, h1, h2] at h
      | some v2 =>
          simp only [mkStack, h1, h2] at h
          injection h with h3
          subst h3
          exact ⟨rfl, rfl, v1, v2, rfl, rfl, rfl⟩

theorem mkStack_error_only {p1 p2 : OutRow} {e : String}
    (h : mkStack p1 p2 = .error e) : e = "KeyError" := by
  cases h1 : confidence_value p1.confidence with
  | none =>
      simp only [mkStack, h1] at h
      injection h with h3
      exact h3.symm
  | some v1 =>
      cases h2 : confidence_value p2.confidence with
      | none =>
          simp only [mkStack, h1, h2] at h
          injection h with h3
          exact h3.symm
      | some v2 => simp [mkStack, h1, h2] at h

theorem mkStack_error_of_bad {p1 p2 : OutRow}
    (h : confidence_value p1.confidence = none ∨
      confidence_value p2.confidence = none) :
    mkStack p1 p2 = .error "KeyError" := by
  rcases h with h1 | h2
  · simp [mkStack, h1]
  · cases h1 : confidence_value p1.confidence with
    | none => simp [mkStack, h1]
    | some v1 => simp [mkStack, h1, h2]

theorem buildStacks_ok_mem :
    ∀ {l : List (OutRow × OutRow)} {ss : List Stack},
      buildStacks l = .ok ss → ∀ s ∈ ss,
        ∃ pr ∈ l, mkStack pr.1 pr.2 = .ok s
  | [], ss, h, s, hs => by
      rw [buildStacks] at h
      injection h with h3
      subst h3
      simp at hs
  | pr0 :: rest, ss, h, s, hs => by
      rw [buildStacks] at h
      cases h1 : mkStack pr0.1 pr0.2 with
      | error e => simp [h1] at h
      | ok s0 =>
          cases h2 : buildStacks rest with
          | error e => simp [h1, h2] at h
          | ok ss' =>
              simp only [h1, h2] at h
              injection h with h3
              subst h3
              rcases List.mem_cons.1 hs with rfl | hmem
              · exact ⟨pr0, List.mem_cons_self _ _, h1⟩
              · rcases buildStacks_ok_mem h2 s hmem with ⟨pr, hpr, hmk⟩
                exact ⟨pr, List.mem_cons_of_mem _ hpr, hmk⟩

theorem buildStacks_error :
    ∀ {l : List (OutRow × OutRow)} {pr : OutRow × OutRow}, pr ∈ l →
      confidence_value pr.1.confidence = none ∨
        confidence_value pr.2.confidence = none →
      buildStacks l = .error "KeyError"
  | [], pr, hmem, _ => by simp at hmem
  | pr0 :: rest, pr, hmem, hbad => by
      rcases List.mem_cons.1 hmem with rfl | hmem'
      · rw [buildStacks, mkStack_error_of_bad hbad]
      · cases h1 : mkStack pr0.1 pr0.2 with
        | error e =>
            rw [buildStacks, h1, mkStack_error_only h1]
        | ok s0 =>
            rw [buildStacks, h1, buildStacks_error hmem' hbad]

/-- A concrete `A+` prediction row with zero score, team `T1`. -/
def p1c : OutRow :=
  { toScoredRow :=
      { toPlayerRow :=
          { player := "P1", team := "T1", opponent := "O"
            barrelPct := 0, launchAngleSweetSpotPct := 0, xISO := 0
            weatherBoost := 0, parkFactorBoost := 0, pitcherHRBoost := 0
            hotStreakBoost := 0 }
        hrScore := 0 }
    confidence := "A+" }

/-- A concrete `B+` prediction row with zero score, team `T2`. -/
def p2c : OutRow :=
  { toScoredRow :=
      { toPlayerRow :=
          { player := "P2", team := "T2", opponent := "O"
            barrelPct := 0, launchAngleSweetSpotPct := 0, xISO := 0
            weatherBoost := 0, parkFactorBoost := 0, pitcherHRBoost := 0
            hotStreakBoost := 0 }
        hrScore := 0 }
    confidence := "B+" }

/-- A concrete row carrying a Confidence label outside the closed set. -/
def pZc : OutRow :=
  { toScoredRow :=
      { toPlayerRow :=
          { player := "PZ", team := "T1", opponent := "O"
            barrelPct := 0, launchAngleSweetSpotPct := 0, xISO := 0
            weatherBoost := 0, parkFactorBoost := 0, pitcherHRBoost := 0
            hotStreakBoost := 0 }
        hrScore := 0 }
    confidence := "Z" }

/-- The stack the builder produces for the pair `(p1c, p2c)`. -/
def sW5 : Stack :=
  { player1 := "P1", team1 := "T1", player2 := "P2", team2 := "T2"
    combinedScore := 0 * 0 * (1 + 0.15 + 0.0)
    player1Confidence := "A+", player2Confidence := "B+" }

/-- A two-row cross-team prediction table. -/
def df2W : List OutRow := [p1c, p2c]

/-- A two-row table whose first row has an invalid Confidence label. -/
def dfBadW : List OutRow := [pZc, p2c]

/-- A zero-score `B+` row on team `T<i>`, for building a 20-team table. -/
def mkP (i : ℕ) : OutRow :=
  { toScoredRow :=
      { toPlayerRow :=
          { player := "P" ++ toString i, team := "T" ++ toString i
            opponent := "O"
            barrelPct := 0, launchAngleSweetSpotPct := 0, xISO := 0
            weatherBoost := 0, parkFactorBoost := 0, pitcherHRBoost := 0
            hotStreakBoost := 0 }
        hrScore := 0 }
    confidence := "B+" }

/-- Twenty rows with pairwise-distinct teams. -/
def df20W : List OutRow := (List.range 20).map mkP

/-- C4: no stack emitted by the Parlay Builder pairs two players of the
same team; and when the input has at least 20 rows whose top 20 have
pairwise-distinct teams, exactly 190 candidate pairs are enumerated before
the same-team filter and all 190 survive it. -/
theorem claim_C4 (top30 : List OutRow) :
    (∀ ss, build_parlay_stacks top30 = .ok ss →
        ∀ s ∈ ss, s.team1 ≠ s.team2) ∧
      (20 ≤ top30.length →
        (top30.take 20).Pairwise (fun a b : OutRow => a.team ≠ b.team) →
        (candidatePairs top30).length = 190 ∧
          (filteredPairs top30).length = 190) := by
  constructor
  · intro ss hok s hs
    rw [build_parlay_stacks] at hok
    cases hb : buildStacks (filteredPairs top30) with
    | error e => simp [hb] at hok
    | ok ss0 =>
        simp only [hb] at hok
        injection hok with h3
        subst h3
        have hs0 : s ∈ ss0 := by
          have := List.mem_of_mem_take hs
          rwa [List.mem_insertionSort] at this
        rcases buildStacks_ok_mem hb s hs0 with ⟨pr, hpr, hmk⟩
        rcases List.mem_filter.1 hpr with ⟨_, hteam⟩
        rcases mkStack_ok_fields hmk with ⟨h1, h2, _⟩
        rw [h1, h2]
        simpa using hteam
  · intro h20 hpw
    have hlen : (top30.take 20).length = 20 := by
      rw [List.length_take]
      exact min_eq_left h20
    have hc : (candidatePairs top30).length = 190 := by
      rw [candidatePairs, length_combinations2, hlen]
      decide
    refine ⟨hc, ?_⟩
    have hall : ∀ pr ∈ candidatePairs top30,
        (!(pr.1.team == pr.2.team)) = true := by
      intro pr hpr
      have hne := combinations2_rel _ hpw pr hpr
      simpa using hne
    rw [filteredPairs, List.filter_eq_self.2 hall]
    exact hc

/-- Instantiation of `claim_C4`: a concrete cross-team pair yields a stack
with distinct teams, and a concrete 20-team table yields 190 candidate
pairs, all surviving the filter. -/
theorem claim_C4_witness :
    (build_parlay_stacks df2W = Except.ok [sW5] ∧
        sW5.team1 ≠ sW5.team2) ∧
      (20 ≤ df20W.length ∧ (candidatePairs df20W).length = 190 ∧
        (filteredPairs df20W).length = 190) := by
  have hok : build_parlay_stacks df2W = Except.ok [sW5] := by rfl
  have h20 : 20 ≤ df20W.length := by decide
  have hpw : (df20W.take 20).Pairwise
      (fun a b : OutRow => a.team ≠ b.team) := by decide
  have h2 := (claim_C4 df20W).2 h20 hpw
  exact ⟨⟨hok, (claim_C4 df2W).1 [sW5] hok sW5 (List.mem_singleton.2 rfl)⟩,
    h20, h2.1, h2.2⟩

/-- C5: every stack the builder assembles from a surviving pair has
`Combined_Score = HR_Score_1 * HR_Score_2 * (1 + v1 + v2)` where `v1, v2`
are the `confidence_value` entries of the two tiers; the table maps
`A+ ↦ 0.15`, `A ↦ 0.10`, `A- ↦ 0.05`, `B+ ↦ 0.0`; and a pair with tiers
`(A+, B+)` scores exactly `HR_Score_1 * HR_Score_2 * 1.15`. -/
theorem claim_C5 (p1 p2 : OutRow) (s : Stack)
    (h : mkStack p1 p2 = .ok s) :
    (∃ v1 v2, confidence_value p1.confidence = some v1 ∧
        confidence_value p2.confidence = some v2 ∧
        s.combinedScore = p1.hrScore * p2.hrScore * (1 + v1 + v2)) ∧
      (confidence_value "A+" = some 0.15 ∧
        confidence_value "A" = some 0.10 ∧
        confidence_value "A-" = some 0.05 ∧
        confidence_value "B+" = some 0.0) ∧
      (p1.confidence = "A+" → p2.confidence = "B+" →
        s.combinedScore = p1.hrScore * p2.hrScore * 1.15) := by
  rcases mkStack_ok_fields h with ⟨_, _, v1, v2, hcv1, hcv2, hcomb⟩
  refine ⟨⟨v1, v2, hcv1, hcv2, hcomb⟩, ⟨rfl, rfl, rfl, rfl⟩, ?_⟩
  intro ha hb
  rw [ha] at hcv1
  rw [hb] at hcv2
  have hv1 : v1 = 0.15 := by
    have h15 : confidence_value "A+" = some (0.15 : ℚ) := rfl
    rw [h15] at hcv1
    injection hcv1 with h3
    exact h3.symm
  have hv2 : v2 = 0.0 := by
    have h00 : confidence_value "B+" = some (0.0 : ℚ) := rfl
    rw [h00] at hcv2
    injection hcv2 with h3
    exact h3.symm
  rw [hcomb, hv1, hv2]
  norm_num

/-- Instantiation of `claim_C5` at a concrete `(A+, B+)` pair. -/
theorem claim_C5_witness :
    mkStack p1c p2c = Except.ok sW5 ∧
      sW5.combinedScore = p1c.hrScore * p2c.hrScore * 1.15 := by
  have h : mkStack p1c p2c = Except.ok sW5 := by rfl
  exact ⟨h, (claim_C5 p1c p2c sW5 h).2.2 rfl rfl⟩

/-- C8: if a candidate pair surviving the same-team filter carries a
Confidence label outside the closed set `{A+, A, A-, B+}` on either
player, the Parlay Builder fails (the `confidence_value` dict lookup
raises `KeyError`; the spec's `ConfigError` is this failure). -/
theorem claim_C8 (top30 : List OutRow) (pr : OutRow × OutRow)
    (hmem : pr ∈ filteredPairs top30)
    (hbad : confidence_value pr.1.confidence = none ∨
      confidence_value pr.2.confidence = none) :
    build_parlay_stacks top30 = .error "KeyError" := by
  rw [build_parlay_stacks, buildStacks_error hmem hbad]

/-- Instantiation of `claim_C8` at a concrete table containing a row
labelled `Z`. -/
theorem claim_C8_witness :
    (pZc, p2c) ∈ filteredPairs dfBadW ∧
      confidence_value pZc.confidence = none ∧
      build_parlay_stacks dfBadW = Except.error "KeyError" := by
  have hm : (pZc, p2c) ∈ filteredPairs dfBadW := by decide
  exact ⟨hm, rfl, claim_C8 dfBadW (pZc, p2c) hm (Or.inl rfl)⟩

theorem beq_comm_str (s t : String) : (s == t) = (t == s) := by
  by_cases h : s = t
  · rw [h]
  · rw [beq_eq_false_iff_ne.2 h, beq_eq_false_iff_ne.2 (Ne.symm h)]

theorem filter_key_le_one {β : Type} (g : β → String) :
    ∀ B : List β, (B.map g).Nodup → ∀ s : String,
      (B.filter fun b => g b == s).length ≤ 1
  | [], _, s => by simp
  | b :: B', h, s => by
      rw [List.map_cons, List.nodup_cons] at h
      rw [List.filter_cons]
      by_cases hb : (g b == s) = true
      · have hgb : g b = s := by rwa [beq_iff_eq] at hb
        have hrest : B'.filter (fun x => g x == s) = [] := by
          rw [List.filter_eq_nil_iff]
          intro x hx hcon
          have hgx : g x = s := by rwa [beq_iff_eq] at hcon
          exact h.1 (List.mem_map.2 ⟨x, hx, hgx.trans hgb.symm⟩)
        rw [if_pos hb, hrest]
        simp
      · rw [if_neg hb]
        exact filter_key_le_one g B' h.2 s

theorem sum_plus_unmatched {α β : Type} (f : α → String) (g : β → String)
    (B : List β) (hB : (B.map g).Nodup) :
    ∀ A : List α,
      (A.map fun a => (B.filter fun b => g b == f a).length).sum +
        (A.filter fun a =>
          (B.filter fun b => g b == f a).isEmpty).length = A.length
  | [] => by simp
  | a :: A' => by
      have ih := sum_plus_unmatched f g B hB A'
      rw [List.map_cons, List.sum_cons, List.filter_cons]
      by_cases hfe : (B.filter fun b => g b == f a) = []
      · have hie : (B.filter fun b => g b == f a).isEmpty = true := by
          rw [hfe]; rfl
        rw [hie, hfe]
        simp only [List.length_nil, List.length_cons, if_true]
        omega
      · have hie : (B.filter fun b => g b == f a).isEmpty = false := by
          cases h' : (B.filter fun b => g b == f a) with
          | nil => exact absurd h' hfe
          | cons x xs => rfl
        have hpos : 0 < (B.filter fun b => g b == f a).length :=
          List.length_pos.2 hfe
        have hle := filter_key_le_one g B hB (f a)
        rw [hie]
        simp only [Bool.false_eq_true, if_false, List.length_cons]
        omega

theorem sum_map_add_split {β : Type} (u v : β → ℕ) :
    ∀ B : List β,
      (B.map fun b => u b + v b).sum = (B.map u).sum + (B.map v).sum
  | [] => rfl
  | b :: B' => by
      rw [List.map_cons, List.sum_cons, List.map_cons, List.sum_cons,
        List.map_cons, List.sum_cons, sum_map_add_split u v B']
      omega

theorem sum_ite_eq_filter_len {α β : Type} (f : α → String) (g : β → String)
    (a : α) : ∀ B : List β,
      (B.map fun b => if f a == g b then 1 else 0).sum =
        (B.filter fun b => g b == f a).length
  | [] => rfl
  | b :: B' => by
      rw [List.map_cons, List.sum_cons, List.filter_cons,
        sum_ite_eq_filter_len f g a B']
      rw [beq_comm_str (f a) (g b)]
      by_cases h : (g b == f a) = true
      · rw [if_pos h, if_pos h, List.length_cons]
        omega
      · rw [if_neg h, if_neg h]
        omega

theorem sum_filter_swap {α β : Type} (f : α → String) (g : β → String) :
    ∀ (A : List α) (B : List β),
      (A.map fun a => (B.filter fun b => g b == f a).length).sum =
        (B.map fun b => (A.filter fun x => f x == g b).length).sum
  | [], B => by
      simp only [List.map_nil, List.sum_nil, List.filter_nil,
        List.length_nil]
      rw [List.map_const']
      simp
  | a :: A', B => by
      rw [List.map_cons, List.sum_cons, sum_filter_swap f g A' B]
      have hsplit : ∀ b : β,
          ((a :: A').filter fun x => f x == g b).length =
            (if f a == g b then 1 else 0) +
              (A'.filter fun x => f x == g b).length := by
        intro b
        rw [List.filter_cons]
        by_cases h : (f a == g b) = true
        · rw [if_pos h, if_pos h, List.length_cons]
          omega
        · rw [if_neg h, if_neg h]
          omega
      simp only [hsplit]
      rw [sum_map_add_split, sum_ite_eq_filter_len f g a B]

theorem mem_hitRecords_result {d : String} {P : List PredRow}
    {O : List ActualRow} {r : TrackRow} (h : r ∈ hitRecords d P O) :
    r.result = "Hit" := by
  rw [hitRecords] at h
  rcases List.mem_flatMap.1 h with ⟨p, _, hm⟩
  rcases List.mem_map.1 hm with ⟨o, _, rfl⟩
  rfl

theorem mem_missRecords_result {d : String} {P : List PredRow}
    {O : List ActualRow} {r : TrackRow} (h : r ∈ missRecords d P O) :
    r.result = "Miss" := by
  simp only [missRecords] at h
  rcases List.mem_map.1 h with ⟨p, _, rfl⟩
  rfl

theorem mem_surpriseRecords_result {d : String} {P : List PredRow}
    {O : List ActualRow} {r : TrackRow} (h : r ∈ surpriseRecords d P O) :
    r.result = "Surprise" := by
  simp only [surpriseRecords] at h
  rcases List.mem_map.1 h with ⟨o, _, rfl⟩
  rfl

theorem length_hitRecords (d : String) (P : List PredRow)
    (O : List ActualRow) :
    (hitRecords d P O).length =
      (P.map fun p =>
        (O.filter fun o => o.player == p.player).length).sum := by
  rw [hitRecords, List.length_flatMap]
  simp [Function.comp_def]

theorem length_missRecords (d : String) (P : List PredRow)
    (O : List ActualRow) :
    (missRecords d P O).length =
      (P.filter fun p =>
        (O.filter fun o => o.player == p.player).isEmpty).length := by
  simp only [missRecords]
  rw [List.length_map]

theorem length_surpriseRecords (d : String) (P : List PredRow)
    (O : List ActualRow) :
    (surpriseRecords d P O).length =
      (O.filter fun o =>
        (P.filter fun p => p.player == o.player).isEmpty).length := by
  simp only [surpriseRecords]
  rw [List.length_map]

theorem count_partition (d : String) (P : List PredRow) (O : List ActualRow)
    (lbl : String) :
    ((trackingRecords d P O).filter fun r => r.result == lbl).length =
      ((hitRecords d P O).filter fun r => r.result == lbl).length +
        ((missRecords d P O).filter fun r => r.result == lbl).length +
        ((surpriseRecords d P O).filter fun r => r.result == lbl).length := by
  rw [trackingRecords, List.filter_append, List.filter_append,
    List.length_append, List.length_append]

theorem hit_count_trackingRecords (d : String) (P : List PredRow)
    (O : List ActualRow) :
    hit_count (trackingRecords d P O) = (hitRecords d P O).length := by
  rw [hit_count, count_partition]
  rw [List.filter_eq_self.2
    (fun r hr => by rw [mem_hitRecords_result hr]; rfl)]
  rw [List.filter_eq_nil_iff.2
    (fun r hr => by rw [mem_missRecords_result hr]; decide)]
  rw [List.filter_eq_nil_iff.2
    (fun r hr => by rw [mem_surpriseRecords_result hr]; decide)]
  rfl

theorem miss_count_trackingRecords (d : String) (P : List PredRow)
    (O : List ActualRow) :
    miss_count (trackingRecords d P O) = (missRecords d P O).length := by
  rw [miss_count, count_partition]
  rw [List.filter_eq_nil_iff.2
    (fun r hr => by rw [mem_hitRecords_result hr]; decide)]
  rw [List.filter_eq_self.2
    (fun r hr => by rw [mem_missRecords_result hr]; rfl)]
  rw [List.filter_eq_nil_iff.2
    (fun r hr => by rw [mem_surpriseRecords_result hr]; decide)]
  simp

theorem surprise_count_trackingRecords (d : String) (P : List PredRow)
    (O : List ActualRow) :
    surprise_count (trackingRecords d P O) =
      (surpriseRecords d P O).length := by
  rw [surprise_count, count_partition]
  rw [List.filter_eq_nil_iff.2
    (fun r hr => by rw [mem_hitRecords_result hr]; decide)]
  rw [List.filter_eq_nil_iff.2
    (fun r hr => by rw [mem_missRecords_result hr]; decide)]
  rw [List.filter_eq_self.2
    (fun r hr => by rw [mem_surpriseRecords_result hr]; rfl)]
  simp

/-- A concrete `A+` prediction-table row for player `A`. -/
def predA : PredRow := ⟨"A", "NYY", "BOS", 0, "A+"⟩

/-- A concrete `B+` prediction-table row for player `B`. -/
def predB : PredRow := ⟨"B", "BOS", "NYY", 0, "B+"⟩

/-- An outcome row: player `A` (team NYY) hit one home run. -/
def actA1 : ActualRow := ⟨"A", "NYY", 1, "d"⟩

/-- A second outcome row for the same player name `A` (team LAA). -/
def actA2 : ActualRow := ⟨"A", "LAA", 1, "d"⟩

/-- An outcome row for an unpredicted player `C` with two home runs. -/
def actC : ActualRow := ⟨"C", "TEX", 2, "d"⟩

/-- C6 as stated is false: with one predicted player `A` and an outcome
table holding two rows named `A`, the pandas-style merge matches the
prediction twice, so `|Hit| + |Miss| = 2 ≠ 1 = |P|`. -/
theorem claim_C6_counterexample :
    ¬(hit_count (trackingRecords "d" [predA] [actA1, actA2]) +
          miss_count (trackingRecords "d" [predA] [actA1, actA2]) =
          ([predA] : List PredRow).length ∧
        hit_count (trackingRecords "d" [predA] [actA1, actA2]) +
          surprise_count (trackingRecords "d" [predA] [actA1, actA2]) =
          ([actA1, actA2] : List ActualRow).length) := by decide

/-- C6 amended: for prediction and outcome tables whose player names are
unique within each table (any overlap pattern between the two tables),
the Tracker's partition satisfies `|Hit| + |Miss| = |P|` and
`|Hit| + |Surprise| = |O|`. -/
theorem claim_C6 (d : String) (P : List PredRow) (O : List ActualRow)
    (hP : (P.map fun p => p.player).Nodup)
    (hO : (O.map fun o => o.player).Nodup) :
    hit_count (trackingRecords d P O) + miss_count (trackingRecords d P O) =
        P.length ∧
      hit_count (trackingRecords d P O) +
          surprise_count (trackingRecords d P O) = O.length := by
  constructor
  · rw [hit_count_trackingRecords, miss_count_trackingRecords,
      length_hitRecords, length_missRecords]
    exact sum_plus_unmatched (fun p => p.player) (fun o => o.player) O hO P
  · rw [hit_count_trackingRecords, surprise_count_trackingRecords,
      length_hitRecords, length_surpriseRecords]
    have hswap := sum_filter_swap (fun p : PredRow => p.player)
      (fun o : ActualRow => o.player) P O
    rw [hswap]
    exact sum_plus_unmatched (fun o => o.player) (fun p => p.player) P hP O

/-- Instantiation of `claim_C6` at concrete duplicate-free tables with one
overlapping player, one miss and one surprise. -/
theorem claim_C6_witness :
    (([predA, predB].map fun p => p.player).Nodup ∧
        ([actA1, actC].map fun o => o.player).Nodup) ∧
      (hit_count (trackingRecords "d" [predA, predB] [actA1, actC]) +
          miss_count (trackingRecords "d" [predA, predB] [actA1, actC]) =
          ([predA, predB] : List PredRow).length ∧
        hit_count (trackingRecords "d" [predA, predB] [actA1, actC]) +
            surprise_count (trackingRecords "d" [predA, predB] [actA1, actC]) =
          ([actA1, actC] : List ActualRow).length) :=
  ⟨⟨by decide, by decide⟩,
    claim_C6 "d" [predA, predB] [actA1, actC] (by decide) (by decide)⟩

/-- C7 as stated is false: when the dated prediction artifact is missing
but the `latest` fallback artifact exists, the Tracker does not return
`None` — it proceeds on the fallback and produces records. -/
theorem claim_C7_counterexample :
    track_home_runs none (some [predB]) (some [actA1]) "d" ≠ none := by
  decide

/-- C7 amended: the Tracker returns no result only when both the dated
prediction artifact and the `latest` fallback are unavailable; when only
the dated artifact is missing it falls back to the `latest` artifact and
behaves as if that artifact had been the dated one. -/
theorem claim_C7 (latest : List PredRow) (actual : Option (List ActualRow))
    (d : String) :
    track_home_runs none none actual d = none ∧
      track_home_runs none (some latest) actual d =
        track_home_runs (some latest) none actual d :=
  ⟨rfl, rfl⟩

/-- C9: Diagnostics' `hit_rate` and `surprise_rate` are total — equal to
`hit_count/(hit_count+miss_count)` and
`surprise_count/(hit_count+surprise_count)` respectively, and 0 whenever
the corresponding denominator is 0. -/
theorem claim_C9 (l : List TrackRow) :
    (hit_rate l =
        if total_predictions l = 0 then 0
        else (hit_count l : ℚ) / (total_predictions l : ℚ)) ∧
      (surprise_rate l =
        if total_hrs l = 0 then 0
        else (surprise_count l : ℚ) / (total_hrs l : ℚ)) := by
  constructor
  · rw [hit_rate]
    rcases Nat.eq_zero_or_pos (total_predictions l) with h | h
    · rw [if_neg (by omega), if_pos h]
    · rw [if_pos h, if_neg (by omega)]
  · rw [surprise_rate]
    rcases Nat.eq_zero_or_pos (total_hrs l) with h | h
    · rw [if_neg (by omega), if_pos h]
    · rw [if_pos h, if_neg (by omega)]

/-- C10: the merge of a prediction table and an outcome table that both
carry a `Team` column renames it to `Team_x`/`Team_y`, so the plain
`Team` lookup in the Miss branch never succeeds: no `Team` column exists
in the merged frame, and every Miss record carries the sentinel
`"Unknown"` instead of the prediction-side team. -/
theorem claim_C10 (d : String) (P : List PredRow) (O : List ActualRow) :
    "Team" ∉ mergeColumns predictionCols actualCols "Player" ∧
      ∀ r ∈ trackingRecords d P O, r.result = "Miss" →
        r.team = "Unknown" := by
  constructor
  · decide
  · intro r hr hmiss
    rw [trackingRecords] at hr
    rcases List.mem_append.1 hr with hr' | hrS
    · rcases List.mem_append.1 hr' with hrH | hrM
      · rw [mem_hitRecords_result hrH] at hmiss
        exact absurd hmiss (by decide)
      · simp only [missRecords] at hrM
        rcases List.mem_map.1 hrM with ⟨p, _, rfl⟩
        show (if "Team" ∈ mergeColumns predictionCols actualCols "Player"
            then p.team else "Unknown") = "Unknown"
        rw [if_neg (by decide)]
    · rw [mem_surpriseRecords_result hrS] at hmiss
      exact absurd hmiss (by decide)

/-- The Miss record the Tracker produces for `predB` against an empty
outcome table. -/
def rB : TrackRow := ⟨"d", "B", "Unknown", 0, "B+", 0, "Miss", false⟩

/-- Instantiation of `claim_C10` at a concrete Miss record. -/
theorem claim_C10_witness :
    rB ∈ trackingRecords "d" [predB] [] ∧ rB.result = "Miss" ∧
      rB.team = "Unknown" := by
  have hm : rB ∈ trackingRecords "d" [predB] [] := by decide
  exact ⟨hm, rfl, (claim_C10 "d" [predB] []).2 rB hm rfl⟩
